import Mathlib

/-!
Shallow embedding of `src/consumer/consume.py` (a WIS 2.0 MQP notification
consumer).  The per-message pipeline `parse_mqp_message` and the delivery
callback `callback` are translated directly from the source.  Library
collaborators used by the source (`hashlib.sha512`, `base64`, `requests.get`,
`os.path`, `os.makedirs`, file writes, and the JSON-schema gate) are modelled
as executable Lean functions; machine-level effects (logging of warnings and
errors, HTTP requests, directory creation, file writes) are recorded in an
explicit state `PState` threaded through the pipeline, and Python exceptions
become an explicit error result carrying the state at the point of the raise.
-/

/-! ## SHA-512 (model of `hashlib.sha512`, FIPS 180-4) -/

/-- First 80 primes; FIPS 180-4 derives the SHA-512 round constants from the
fractional parts of their cube roots, and the initial hash value from the
fractional parts of the square roots of the first 8 of them. -/
def primes80 : List Nat :=
  [2, 3, 5, 7, 11, 13, 17, 19, 23, 29, 31, 37, 41, 43, 47, 53, 59, 61, 67, 71,
   73, 79, 83, 89, 97, 101, 103, 107, 109, 113, 127, 131, 137, 139, 149, 151,
   157, 163, 167, 173, 179, 181, 191, 193, 197, 199, 211, 223, 227, 229, 233,
   239, 241, 251, 257, 263, 269, 271, 277, 281, 283, 293, 307, 311, 313, 317,
   331, 337, 347, 349, 353, 359, 367, 373, 379, 383, 389, 397, 401, 409]

/-- Bisection step for the integer cube root. -/
def icbrtGo (n : Nat) : Nat → Nat → Nat → Nat
  | lo, _, 0 => lo
  | lo, hi, fuel + 1 =>
    if hi ≤ lo + 1 then lo
    else
      let m := (lo + hi) / 2
      if m ^ 3 ≤ n then icbrtGo n m hi fuel else icbrtGo n lo m fuel

/-- Integer cube root (largest `m` with `m ^ 3 ≤ n`, for `n < 2 ^ 240`). -/
def icbrt (n : Nat) : Nat := icbrtGo n 0 (2 ^ 80) 300

/-- Bisection step for the integer square root. -/
def isqrtGo (n : Nat) : Nat → Nat → Nat → Nat
  | lo, _, 0 => lo
  | lo, hi, fuel + 1 =>
    if hi ≤ lo + 1 then lo
    else
      let m := (lo + hi) / 2
      if m ^ 2 ≤ n then isqrtGo n m hi fuel else isqrtGo n lo m fuel

/-- Integer square root (largest `m` with `m ^ 2 ≤ n`, for `n < 2 ^ 160`);
a fuel-based bisection is used instead of `Nat.sqrt` so that it reduces
inside the kernel. -/
def isqrt (n : Nat) : Nat := isqrtGo n 0 (2 ^ 80) 300

/-- Modulus for 64-bit words. -/
def w64 : Nat := 2 ^ 64

/-- SHA-512 round constants: first 64 bits of the fractional parts of the
cube roots of the first 80 primes (FIPS 180-4 section 4.2.3). -/
def K80 : List Nat := primes80.map (fun p => icbrt (p * 2 ^ 192) % w64)

/-- SHA-512 initial hash value: first 64 bits of the fractional parts of the
square roots of the first 8 primes (FIPS 180-4 section 5.3.5). -/
def H512 : List Nat := (primes80.take 8).map (fun p => isqrt (p * 2 ^ 128) % w64)

/-- Rotate a 64-bit word right by `n`. -/
def rotr64 (n x : Nat) : Nat := ((x >>> n) ||| (x <<< (64 - n))) % w64

/-- FIPS 180-4 big sigma-0. -/
def bSig0 (x : Nat) : Nat := rotr64 28 x ^^^ rotr64 34 x ^^^ rotr64 39 x

/-- FIPS 180-4 big sigma-1. -/
def bSig1 (x : Nat) : Nat := rotr64 14 x ^^^ rotr64 18 x ^^^ rotr64 41 x

/-- FIPS 180-4 small sigma-0. -/
def sSig0 (x : Nat) : Nat := rotr64 1 x ^^^ rotr64 8 x ^^^ (x >>> 7)

/-- FIPS 180-4 small sigma-1. -/
def sSig1 (x : Nat) : Nat := rotr64 19 x ^^^ rotr64 61 x ^^^ (x >>> 6)

/-- FIPS 180-4 choice function; the complement of `e` is taken against the
64-bit all-ones word. -/
def chF (e f g : Nat) : Nat := (e &&& f) ^^^ ((w64 - 1 - e) &&& g)

/-- FIPS 180-4 majority function. -/
def majF (a b c : Nat) : Nat := (a &&& b) ^^^ (a &&& c) ^^^ (b &&& c)

/-- Big-endian encoding of `v` in `n` bytes. -/
def natToBeBytes (n v : Nat) : List Nat :=
  (List.range n).map (fun i => (v >>> (8 * (n - 1 - i))) % 256)

/-- Big-endian decoding of a byte list into one word. -/
def bytesToWord (bs : List Nat) : Nat := bs.foldl (fun a b => a * 256 + b) 0

/-- Split a list into chunks of `k` elements; `fuel` bounds the recursion and
is instantiated with the list length. -/
def chunksGo (k : Nat) : Nat → List Nat → List (List Nat)
  | 0, _ => []
  | _, [] => []
  | fuel + 1, l => l.take k :: chunksGo k fuel (l.drop k)

/-- Force a `Nat` computation to a literal before continuing; used so that
kernel reduction of the compression loop keeps a bounded stack depth. -/
def forceNat (n : Nat) (k : Nat → α) : α :=
  match n with
  | 0 => k 0
  | m + 1 => k (m + 1)

/-- Next word of the SHA-512 message schedule, extending a schedule prefix
`ws` (FIPS 180-4 section 6.4.2 step 1). -/
def nextW (ws : List Nat) : Nat :=
  let t := ws.length
  (sSig1 (ws.getD (t - 2) 0) + ws.getD (t - 7) 0 + sSig0 (ws.getD (t - 15) 0) +
    ws.getD (t - 16) 0) % w64

/-- Extend a 16-word block to the 80-word message schedule. -/
def extendSchedule : Nat → List Nat → List Nat
  | 0, ws => ws
  | n + 1, ws => forceNat (nextW ws) (fun w => extendSchedule n (ws ++ [w]))

/-- One round of the SHA-512 compression function on the 8-word working state
(FIPS 180-4 section 6.4.2 step 3). -/
def sha512Round (s : List Nat) (kw : Nat × Nat) : List Nat :=
  match s with
  | [a, b, c, d, e, f, g, h] =>
    let t1 := (h + bSig1 e + chF e f g + kw.1 + kw.2) % w64
    let t2 := (bSig0 a + majF a b c) % w64
    forceNat ((t1 + t2) % w64) (fun na =>
      forceNat ((d + t1) % w64) (fun ne => [na, a, b, c, ne, e, f, g]))
  | _ => s

/-- Process one 16-word block of the padded message. -/
def compressBlock (st : List Nat) (block : List Nat) : List Nat :=
  let ws := extendSchedule 64 block
  let fin := (K80.zip ws).foldl sha512Round st
  List.zipWith (fun x y => (x + y) % w64) st fin

/-- SHA-512 message padding: a `0x80` byte, zeros up to 112 mod 128, then the
bit length in 16 big-endian bytes (FIPS 180-4 section 5.1.2). -/
def padMessage (bs : List Nat) : List Nat :=
  let L := bs.length
  let z := (112 + 128 - (L + 1) % 128) % 128
  bs ++ [128] ++ List.replicate z 0 ++ natToBeBytes 16 (8 * L)

/-- SHA-512 digest of a byte list, as 64 bytes; models
`hashlib.sha512(content).digest()`. -/
def sha512_digest (bs : List Nat) : List Nat :=
  let padded := padMessage bs
  let blocks := (chunksGo 128 padded.length padded).map
    (fun blk => (chunksGo 8 blk.length blk).map bytesToWord)
  let fin := blocks.foldl compressBlock H512
  fin.foldl (fun acc wo => acc ++ natToBeBytes 8 wo) []

/-- Lowercase hexadecimal digit characters. -/
def hexChars : List Char := "0123456789abcdef".data

/-- Lowercase hexadecimal encoding of the SHA-512 digest; models
`hashlib.sha512(content).hexdigest()`. -/
def sha512_hexdigest (bs : List Nat) : String :=
  String.mk ((sha512_digest bs).foldl
    (fun acc byte => acc ++ [hexChars.getD (byte / 16) '0', hexChars.getD (byte % 16) '0']) [])

/-! ## Base64 (model of `base64.b64encode` / `base64.b64decode`) -/

/-- Standard base64 alphabet. -/
def b64Alphabet : List Char :=
  "ABCDEFGHIJKLMNOPQRSTUVWXYZabcdefghijklmnopqrstuvwxyz0123456789+/".data

/-- Character for a 6-bit value. -/
def b64Char (n : Nat) : Char := b64Alphabet.getD n 'A'

/-- Standard base64 encoding of a byte list, with `=` padding. -/
def b64encodeBytes : List Nat → List Char
  | [] => []
  | [x] => [b64Char (x >>> 2), b64Char ((x % 4) <<< 4), '=', '=']
  | [x, y] => [b64Char (x >>> 2), b64Char (((x % 4) <<< 4) ||| (y >>> 4)),
               b64Char ((y % 16) <<< 2), '=']
  | x :: y :: z :: rest =>
    [b64Char (x >>> 2), b64Char (((x % 4) <<< 4) ||| (y >>> 4)),
     b64Char (((y % 16) <<< 2) ||| (z >>> 6)), b64Char (z % 64)] ++ b64encodeBytes rest

/-- Models `base64.b64encode(..).decode("utf8")`: base64 text of a byte
string. -/
def b64encode (bs : List Nat) : String := String.mk (b64encodeBytes bs)

/-- Value of a base64 alphabet character, `none` for other characters. -/
def b64Index (c : Char) : Option Nat :=
  let n := c.toNat
  if 65 ≤ n ∧ n ≤ 90 then some (n - 65)
  else if 97 ≤ n ∧ n ≤ 122 then some (n - 71)
  else if 48 ≤ n ∧ n ≤ 57 then some (n + 4)
  else if c = '+' then some 62
  else if c = '/' then some 63
  else none

/-- Decode a base64 character stream four characters at a time; `=` may only
finish the final quadruple, and a leftover of one to three characters is a
padding error, as in CPython's `binascii.a2b_base64`. -/
def b64decodeQuads : List Char → Except String (List Nat)
  | [] => .ok []
  | a :: b :: c :: d :: rest =>
    match b64Index a, b64Index b with
    | some va, some vb =>
      if c = '=' then
        if d = '=' ∧ rest = [] then .ok [(va <<< 2) ||| (vb >>> 4)]
        else .error "Invalid padding"
      else
        match b64Index c with
        | some vc =>
          if d = '=' then
            if rest = [] then
              .ok [(va <<< 2) ||| (vb >>> 4), ((vb % 16) <<< 4) ||| (vc >>> 2)]
            else .error "Invalid padding"
          else
            match b64Index d with
            | some vd =>
              match b64decodeQuads rest with
              | .ok tl => .ok ([(va <<< 2) ||| (vb >>> 4), ((vb % 16) <<< 4) ||| (vc >>> 2),
                  ((vc % 4) <<< 6) ||| vd] ++ tl)
              | .error e => .error e
            | none => .error "Invalid character"
        | none => .error "Invalid character"
    | _, _ => .error "Incorrect padding"
  | _ => .error "Incorrect padding"

/-- Models `base64.b64decode` in its default non-strict mode: characters
outside the alphabet and the padding character are discarded, then the
stream is decoded in quadruples; an undecodable remainder raises
`binascii.Error`, modelled as the `.error` case. -/
def b64decode (s : String) : Except String (List Nat) :=
  b64decodeQuads (s.data.filter (fun c => (b64Index c).isSome || c = '='))

/-! ## os.path (model of `posixpath.split` / `posixpath.join`) -/

/-- Characters after the last slash (the `tail` of `posixpath.split`). -/
def afterLastSlash (cs : List Char) : List Char :=
  cs.foldl (fun acc c => if c = '/' then [] else acc ++ [c]) []

/-- Models `os.path.split` on POSIX paths: split after the last `/`, with the
head stripped of trailing slashes unless it consists only of slashes. -/
def ospath_split (p : String) : String × String :=
  let cs := p.data
  let tail := afterLastSlash cs
  let headRaw := cs.take (cs.length - tail.length)
  let head :=
    if headRaw.all (fun c => c = '/') then headRaw
    else (headRaw.reverse.dropWhile (fun c => c = '/')).reverse
  (String.mk head, String.mk tail)

/-- First character of a string equals `c`. -/
def startsWithChar (s : String) (c : Char) : Bool :=
  match s.data with
  | [] => false
  | c' :: _ => c' == c

/-- Last character of a string equals `c`. -/
def endsWithChar (s : String) (c : Char) : Bool :=
  match s.data.reverse with
  | [] => false
  | c' :: _ => c' == c

/-- Models `os.path.join` on POSIX paths for two components. -/
def ospath_join (a b : String) : String :=
  if startsWithChar b '/' then b
  else if a = "" ∨ endsWithChar a '/' then a ++ b
  else a ++ "/" ++ b

/-- Models Python `str.replace(old, new)` for a one-character pattern and
replacement, the only form the source uses (`topic.replace(".", "/")`). -/
def pyCharReplace (s : String) (old new : Char) : String :=
  String.mk (s.data.map (fun c => if c = old then new else c))

/-! ## JSON values and the inbound payload -/

/-- Structured JSON value, the result of a successful `json.loads`. -/
inductive JVal where
  | null : JVal
  | bool (b : Bool) : JVal
  | num (n : Int) : JVal
  | str (s : String) : JVal
  | arr (xs : List JVal) : JVal
  | obj (fields : List (String × JVal)) : JVal

/-- First binding of a key in an object field list. -/
def findField (fs : List (String × JVal)) (k : String) : Option JVal :=
  match fs with
  | [] => none
  | (k', v) :: rest => if k' = k then some v else findField rest k

/-- Field lookup in a JSON object; `none` on other JSON values. -/
def jlookup (j : JVal) (k : String) : Option JVal :=
  match j with
  | .obj fs => findField fs k
  | _ => none

/-- Raw inbound payload: either bytes that `json.loads` rejects, or the JSON
value it produces. -/
inductive RawPayload where
  | malformed : RawPayload
  | wellFormed (j : JVal) : RawPayload

/-! ## The notification message and the schema gate -/

/-- Declared integrity block of a notification message. -/
structure Integrity where
  method : String
  value : String
deriving DecidableEq

/-- Inline content block of a notification message. -/
structure Content where
  encoding : String
  value : String
deriving DecidableEq

/-- Typed notification message, as produced by a successful schema
validation. -/
structure Msg where
  relPath : String
  size : Int
  integrity : Integrity
  content : Option Content
  baseUrl : Option String
deriving DecidableEq

/-- Modelled from the spec: the schema document `message-schema.json` loaded
by the source is not under `src/`, so the grammar is taken from the spec's
schema description: required fields `relPath` (string), `size` (integer) and
`integrity` (object with string `method` and `value`), either `content`
(object with string `encoding` and `value`) or `baseUrl` (string) present,
and the two closed enumerations `method = "sha512"` and
`encoding = "base64"`.  Models `jsonschema.validate`: `none` is the
`ValidationError` raise, `some` returns the typed message. -/
def validateSchema (j : JVal) : Option Msg :=
  match jlookup j "relPath", jlookup j "size", jlookup j "integrity",
        jlookup j "content", jlookup j "baseUrl" with
  | some (.str rp), some (.num sz), some ji, jc?, jb? =>
    match jlookup ji "method", jlookup ji "value" with
    | some (.str "sha512"), some (.str iv) =>
      match jc? with
      | some jc =>
        match jlookup jc "encoding", jlookup jc "value" with
        | some (.str "base64"), some (.str cv) =>
          match jb? with
          | none => some ⟨rp, sz, ⟨"sha512", iv⟩, some ⟨"base64", cv⟩, none⟩
          | some (.str b) => some ⟨rp, sz, ⟨"sha512", iv⟩, some ⟨"base64", cv⟩, some b⟩
          | some _ => none
        | _, _ => none
      | none =>
        match jb? with
        | some (.str b) => some ⟨rp, sz, ⟨"sha512", iv⟩, none, some b⟩
        | _ => none
    | _, _ => none
  | _, _, _, _, _ => none

/-! ## Effects, collaborators and errors -/

/-- Outcome of `requests.get`: either a transport-level failure (connection
error, timeout — raised as an exception) or an HTTP response whose `content`
attribute is the body, whatever the status code. -/
inductive HttpOutcome where
  | connectionError : HttpOutcome
  | response (status : Nat) (body : List Nat) : HttpOutcome
deriving DecidableEq

/-- External collaborators and configuration of the consumer: the output
directory (the source hardcodes `"./out"`), the network collaborator behind
`requests.get`, and the set of paths at which the filesystem fails the
`open`/`write` with an `OSError` (modelling write failures). -/
structure Env where
  out_dir : String
  http : String → HttpOutcome
  failPaths : List String

/-- Observable machine state threaded through the pipeline: issued HTTP GET
requests, warning-level log lines, error-level log lines of the callback,
directories created, and files on disk (path with byte content, newest
binding first is not assumed: the list holds one binding per path). -/
structure PState where
  requests : List String
  warnings : List String
  errors : List String
  dirs : List String
  files : List (String × List Nat)
deriving DecidableEq

/-- Empty initial machine state. -/
def initSt : PState := ⟨[], [], [], [], []⟩

/-- Record one HTTP GET request. -/
def addRequest (st : PState) (url : String) : PState :=
  { st with requests := st.requests ++ [url] }

/-- Record one warning-level log line (`logging.warning`). -/
def addWarning (st : PState) (w : String) : PState :=
  { st with warnings := st.warnings ++ [w] }

/-- Record one error-level log line (`logging.error` in the callback). -/
def addError (st : PState) (e : String) : PState :=
  { st with errors := st.errors ++ [e] }

/-- Models `os.makedirs(d, exist_ok=True)`: create the directory if missing,
no effect (and no error) if it exists. -/
def makedirs (st : PState) (d : String) : PState :=
  if d ∈ st.dirs then st else { st with dirs := st.dirs ++ [d] }

/-- Overwrite semantics of `open(path, "wb")` followed by `write`. -/
def fsWrite (files : List (String × List Nat)) (p : String) (c : List Nat) :
    List (String × List Nat) :=
  files.filter (fun e => !(e.1 == p)) ++ [(p, c)]

/-- Python exceptions that the pipeline can raise, with the data interpolated
into the exception message.  In `lengthMismatch`, the first field is the
value placed in the `expected {}` slot and the second the value in the
`got {}` slot of `"integrity issue. Message length expected {} got {}"`,
exactly in the order the source passes them to `format`: `len(content)`
first, `message["size"]` second.  Likewise `checksumMismatch` carries the
computed base64 digest (the `Expected checksum {}` slot) and the declared
integrity value (the `got {}` slot). -/
inductive PipeErr where
  | jsonDecodeError : PipeErr
  | schemaViolation : PipeErr
  | unsupportedEncoding : PipeErr
  | unsupportedMethod : PipeErr
  | keyError : PipeErr
  | binasciiError (msg : String) : PipeErr
  | fetchError : PipeErr
  | lengthMismatch (expectedSlot : Nat) (gotSlot : Int) : PipeErr
  | checksumMismatch (expectedSlot : String) (gotSlot : String) : PipeErr
  | writeError : PipeErr
deriving DecidableEq

/-- Result of one pipeline pass: normal return, or a raised exception
together with the machine state at the raise. -/
inductive PResult where
  | ok (st : PState) : PResult
  | err (e : PipeErr) (st : PState) : PResult
deriving DecidableEq

/-- Result of content resolution: the raw bytes, or a raised exception. -/
inductive RResult where
  | ok (content : List Nat) (st : PState) : RResult
  | err (e : PipeErr) (st : PState) : RResult

/-! ## The pipeline (translated from `parse_mqp_message` and `callback`) -/

/-- Encoding guard of the source: `"content" in message and not
message["content"]["encoding"] == "base64"`. -/
def contentEncodingUnsupported (m : Msg) : Bool :=
  match m.content with
  | some c => !(c.encoding == "base64")
  | none => false

/-- Content resolution line of the source: decode the inline base64 value if
`content` is present, else fetch `message["baseUrl"] + message["relPath"]`
and take the response body (`requests.get(...).content`, with no status
check).  A missing `baseUrl` is the `KeyError` of the subscript. -/
def resolve_content (env : Env) (st : PState) (m : Msg) : RResult :=
  match m.content with
  | some c =>
    match b64decode c.value with
    | .ok bs => .ok bs st
    | .error msg => .err (.binasciiError msg) st
  | none =>
    match m.baseUrl with
    | none => .err .keyError st
    | some burl =>
      let url := burl ++ m.relPath
      let st1 := addRequest st url
      match env.http url with
      | .connectionError => .err .fetchError st1
      | .response _ body => .ok body st1

/-- Integrity check and write-out part of `parse_mqp_message` (source lines
47-63): compute the base64 SHA-512 digest, check the length, check the
digest with the hexadecimal fallback (warning first), then derive the output
path from the topic and the basename of `relPath`, create the directory and
write the file. -/
def verify_and_write (env : Env) (st : PState) (topic : String) (m : Msg)
    (content : List Nat) : PResult :=
  let content_hash := b64encode (sha512_digest content)
  if ¬((content.length : Int) = m.size) then
    .err (.lengthMismatch content.length m.size) st
  else
    let writeOut : PState → PResult := fun st' =>
      let pf := ospath_split m.relPath
      let topic_dir := ospath_join env.out_dir (pyCharReplace topic '.' '/')
      let st'' := makedirs st' topic_dir
      let out_file := ospath_join topic_dir pf.2
      if out_file ∈ env.failPaths then .err .writeError st''
      else .ok { st'' with files := fsWrite st''.files out_file content }
    if ¬(content_hash = m.integrity.value) then
      let st1 := addWarning st "checksum problem. Check old style encoding"
      if ¬(sha512_hexdigest content = m.integrity.value) then
        .err (.checksumMismatch content_hash m.integrity.value) st1
      else writeOut st1
    else writeOut st

/-- Translation of `parse_mqp_message(message, topic)` from the source:
JSON-decode the payload, validate it against the schema, reject unsupported
content encodings and integrity methods, resolve the content, then verify
and write it. -/
def parse_mqp_message (env : Env) (st : PState) (message : RawPayload)
    (topic : String) : PResult :=
  match message with
  | .malformed => .err .jsonDecodeError st
  | .wellFormed j =>
    match validateSchema j with
    | none => .err .schemaViolation st
    | some m =>
      if contentEncodingUnsupported m then .err .unsupportedEncoding st
      else if ¬(m.integrity.method = "sha512") then .err .unsupportedMethod st
      else
        match resolve_content env st m with
        | .err e st1 => .err e st1
        | .ok content st1 => verify_and_write env st1 topic m content

/-- Text of the error-level log line the callback emits for a caught
exception (the full traceback is abstracted to a fixed marker). -/
def tracebackLine : String := "exception during mqp processing"

/-- Translation of `callback`: run the pipeline on one delivery and catch
every exception, logging it at error level; the callback itself always
returns normally. -/
def callback (env : Env) (st : PState) (topic : String)
    (message : RawPayload) : PState :=
  match parse_mqp_message env st message topic with
  | .ok st' => st'
  | .err _ st' => addError st' tracebackLine

/-- Sequential processing of a batch of deliveries `(topic, rawPayload)` by
the broker collaborator, one callback invocation per delivery. -/
def runBatch (env : Env) (st : PState) (ds : List (String × RawPayload)) : PState :=
  ds.foldl (fun s d => callback env s d.1 d.2) st

/-- Error tag of a pipeline result. -/
def tagOf : PResult → Option PipeErr
  | .ok _ => none
  | .err e _ => some e

/-- Machine state carried by a pipeline result. -/
def stOf : PResult → PState
  | .ok st => st
  | .err _ st => st

/-- Machine state carried by a resolution result. -/
def rrSt : RResult → PState
  | .ok _ st => st
  | .err _ st => st

/-- Error tag of a resolution result. -/
def rrTag : RResult → Option PipeErr
  | .ok _ _ => none
  | .err e _ => some e

/-- Resolved bytes of a resolution result. -/
def rrBytes : RResult → Option (List Nat)
  | .ok c _ => some c
  | .err _ _ => none

/-- Output path the write stage derives for a topic and a relative path:
the output root joined with the topic (dots turned into separators) joined
with the basename of the relative path. -/
def outPath (env : Env) (topic relPath : String) : String :=
  ospath_join (ospath_join env.out_dir (pyCharReplace topic '.' '/')) (ospath_split relPath).2

/-! ## Concrete inputs used by witnesses and counterexamples -/

/-- Byte content of the string `"hello world"`. -/
def helloBytes : List Nat := [104, 101, 108, 108, 111, 32, 119, 111, 114, 108, 100]

/-- Base64 text of `"hello world"`. -/
def helloB64 : String := "aGVsbG8gd29ybGQ="

/-- Base64 encoding of the SHA-512 digest of `"hello world"`. -/
def helloDigestB64 : String :=
  "MJ7MSJwS1utMxA9QyQLytNDtd+5RGnx6m808qG1M2G+YndNbxf9JlnDaNCVbRbDP2DDoH2Bdz33FVC6TrpzXbw=="

/-- Lowercase hexadecimal encoding of the SHA-512 digest of
`"hello world"`. -/
def helloDigestHex : String :=
  "309ecc489c12d6eb4cc40f50c902f2b4d0ed77ee511a7c7a9bcd3ca86d4cd86f989dd35bc5ff499670da34255b45b0cfd830e81f605dcf7dc5542e93ae9cd76f"

/-- Environment with the source's output root `"./out"`, a network that
always fails at transport level, and a fault-free filesystem. -/
def envLocal : Env := ⟨"./out", fun _ => .connectionError, []⟩

/-- Environment whose network collaborator answers every GET with an HTTP
404 response carrying `"hello world"` as the body. -/
def env404 : Env := ⟨"./out", fun _ => .response 404 helloBytes, []⟩

/-- Inline notification for `"hello world"` with the base64 digest (the
end-to-end example of the spec). -/
def jHello : JVal := .obj
  [("relPath", .str "obs/station1.csv"), ("size", .num 11),
   ("content", .obj [("encoding", .str "base64"), ("value", .str helloB64)]),
   ("integrity", .obj [("method", .str "sha512"), ("value", .str helloDigestB64)])]

/-- Inline notification like `jHello` but declaring the digest in lowercase
hexadecimal instead of base64. -/
def jHexDigest : JVal := .obj
  [("relPath", .str "obs/station1.csv"), ("size", .num 11),
   ("content", .obj [("encoding", .str "base64"), ("value", .str helloB64)]),
   ("integrity", .obj [("method", .str "sha512"), ("value", .str helloDigestHex)])]

/-- Typed message corresponding to `jHexDigest`. -/
def mHexDigest : Msg :=
  ⟨"obs/station1.csv", 11, ⟨"sha512", helloDigestHex⟩, some ⟨"base64", helloB64⟩, none⟩

/-- Inline notification like `jHello` but declaring `size` 5 while the
content is 11 bytes long. -/
def jSizeFive : JVal := .obj
  [("relPath", .str "obs/station1.csv"), ("size", .num 5),
   ("content", .obj [("encoding", .str "base64"), ("value", .str helloB64)]),
   ("integrity", .obj [("method", .str "sha512"), ("value", .str helloDigestB64)])]

/-- Inline notification declaring `encoding "base64"` whose content value
`"A"` is not decodable base64 (one data character). -/
def jBadB64 : JVal := .obj
  [("relPath", .str "obs/station1.csv"), ("size", .num 11),
   ("content", .obj [("encoding", .str "base64"), ("value", .str "A")]),
   ("integrity", .obj [("method", .str "sha512"), ("value", .str helloDigestB64)])]

/-- Remote notification (no `content` field) for `"hello world"`. -/
def jRemote : JVal := .obj
  [("relPath", .str "obs/station1.csv"), ("size", .num 11),
   ("integrity", .obj [("method", .str "sha512"), ("value", .str helloDigestB64)]),
   ("baseUrl", .str "http://example.test/")]

/-- Typed message corresponding to `jRemote`. -/
def mRemote : Msg :=
  ⟨"obs/station1.csv", 11, ⟨"sha512", helloDigestB64⟩, none, some "http://example.test/"⟩

/-- Inline notification for `"hello world"` with `relPath "x/y/file.bin"`
(the path-derivation example of the spec). -/
def jFileBin : JVal := .obj
  [("relPath", .str "x/y/file.bin"), ("size", .num 11),
   ("content", .obj [("encoding", .str "base64"), ("value", .str helloB64)]),
   ("integrity", .obj [("method", .str "sha512"), ("value", .str helloDigestB64)])]

/-- Typed message corresponding to `jFileBin`. -/
def mFileBin : Msg :=
  ⟨"x/y/file.bin", 11, ⟨"sha512", helloDigestB64⟩, some ⟨"base64", helloB64⟩, none⟩

/-- Typed message like the end-to-end example but declaring `size` 5. -/
def mSizeFive : Msg :=
  ⟨"obs/station1.csv", 5, ⟨"sha512", helloDigestB64⟩, some ⟨"base64", helloB64⟩, none⟩

/-- Payload missing the required `size` field. -/
def jNoSize : JVal := .obj
  [("relPath", .str "obs/x.csv"),
   ("integrity", .obj [("method", .str "sha512"), ("value", .str "v")])]

/-- Remote notification declaring an integrity value `"nope"` that matches
neither digest encoding. -/
def jBadDigest : JVal := .obj
  [("relPath", .str "obs/station1.csv"), ("size", .num 11),
   ("integrity", .obj [("method", .str "sha512"), ("value", .str "nope")]),
   ("baseUrl", .str "http://example.test/")]

/-! ## Basic state lemmas -/

theorem makedirs_files (st : PState) (d : String) : (makedirs st d).files = st.files := by
  unfold makedirs; split <;> rfl

theorem makedirs_warnings (st : PState) (d : String) :
    (makedirs st d).warnings = st.warnings := by
  unfold makedirs; split <;> rfl

theorem makedirs_requests (st : PState) (d : String) :
    (makedirs st d).requests = st.requests := by
  unfold makedirs; split <;> rfl

theorem addWarning_files (st : PState) (w : String) : (addWarning st w).files = st.files := rfl

theorem addWarning_dirs (st : PState) (w : String) : (addWarning st w).dirs = st.dirs := rfl

theorem addWarning_requests (st : PState) (w : String) :
    (addWarning st w).requests = st.requests := rfl

theorem addRequest_files (st : PState) (u : String) : (addRequest st u).files = st.files := rfl

theorem addRequest_dirs (st : PState) (u : String) : (addRequest st u).dirs = st.dirs := rfl

/-! ## First closed theorems -/

set_option maxRecDepth 10000 in
/-- C6: the spec's end-to-end example. The inline `"hello world"`
notification delivered on topic `"mw.synop"` is processed successfully and
produces the file `./out/mw/synop/station1.csv` (the source's output root is
`"./out"`) containing exactly the bytes `"hello world"`, after creating the
directory `./out/mw/synop`. -/
theorem claim_C6_end_to_end :
    parse_mqp_message envLocal initSt (.wellFormed jHello) "mw.synop" =
      .ok ⟨[], [], [], ["./out/mw/synop"], [("./out/mw/synop/station1.csv", helloBytes)]⟩ := by
  decide

set_option maxRecDepth 10000 in
/-- C10: an inline message that passes schema validation and declares
`encoding = "base64"` but whose value `"A"` is not decodable base64 fails
with the base64 decoder's error, which is not the unsupported-encoding
error; no file is written (the state is unchanged), and the callback
catches the failure and only logs it. -/
theorem claim_C10_undecodable_base64 :
    validateSchema jBadB64 =
      some ⟨"obs/station1.csv", 11, ⟨"sha512", helloDigestB64⟩, some ⟨"base64", "A"⟩, none⟩ ∧
    parse_mqp_message envLocal initSt (.wellFormed jBadB64) "mw.synop" =
      .err (.binasciiError "Incorrect padding") initSt ∧
    PipeErr.binasciiError "Incorrect padding" ≠ PipeErr.unsupportedEncoding ∧
    callback envLocal initSt "mw.synop" (.wellFormed jBadB64) = addError initSt tracebackLine := by
  refine ⟨by decide, by decide, by decide, ?_⟩
  decide

set_option maxRecDepth 10000 in
/-- C3, counterexample: a remote message fetched over a network that answers
HTTP 404 with body `"hello world"` is NOT failed with a fetch error; the
pipeline proceeds with the response body, verification passes and the file
is written. This refutes the claim that a non-2xx HTTP response causes a
fetch failure. -/
theorem claim_C3_counterexample :
    env404.http "http://example.test/obs/station1.csv" = .response 404 helloBytes ∧
    parse_mqp_message env404 initSt (.wellFormed jRemote) "mw.synop" =
      .ok ⟨["http://example.test/obs/station1.csv"], [], [], ["./out/mw/synop"],
           [("./out/mw/synop/station1.csv", helloBytes)]⟩ := by
  exact ⟨rfl, by decide⟩

set_option maxRecDepth 10000 in
/-- C8, counterexample: for an 11-byte content declared with `size` 5, the
raised error carries 11 (the actual resolved length) in the slot the
exception message labels `expected` and 5 (the declared size) in the slot
labelled `got`, not the other way round as the claim states. -/
theorem claim_C8_counterexample :
    parse_mqp_message envLocal initSt (.wellFormed jSizeFive) "mw.synop" =
      .err (.lengthMismatch 11 5) initSt ∧
    ¬(parse_mqp_message envLocal initSt (.wellFormed jSizeFive) "mw.synop" =
      .err (.lengthMismatch 5 11) initSt) := by
  exact ⟨by decide, by decide⟩

/-! ## Schema gate lemmas -/

/-- Every schema-validated message declares integrity method `"sha512"`. -/
theorem validate_method {j : JVal} {m : Msg} (h : validateSchema j = some m) :
    m.integrity.method = "sha512" := by
  unfold validateSchema at h
  repeat' split at h
  all_goals simp_all
  all_goals (subst h; rfl)

/-- Every schema-validated message passes the source encoding guard. -/
theorem validate_encoding {j : JVal} {m : Msg} (h : validateSchema j = some m) :
    contentEncodingUnsupported m = false := by
  unfold validateSchema at h
  repeat' split at h
  all_goals simp_all
  all_goals (subst h; rfl)

/-- A schema-validated message without inline content carries a `baseUrl`. -/
theorem validate_baseUrl {j : JVal} {m : Msg} (h : validateSchema j = some m)
    (hc : m.content = none) : ∃ b, m.baseUrl = some b := by
  unfold validateSchema at h
  repeat' split at h
  all_goals simp_all
  all_goals (subst h; simp_all)

/-! ## Resolution and verification lemmas -/

/-- Successful resolution only appends to the request log. -/
theorem resolve_ok_fields {env : Env} {st : PState} {m : Msg} {c : List Nat} {st1 : PState}
    (h : resolve_content env st m = .ok c st1) :
    st1.files = st.files ∧ st1.dirs = st.dirs ∧ st1.warnings = st.warnings ∧
      st1.errors = st.errors := by
  unfold resolve_content at h
  cases hc : m.content with
  | some c0 =>
    simp only [hc] at h
    cases hd : b64decode c0.value with
    | ok bs => simp only [hd] at h; injection h with h1 h2; subst h2; exact ⟨rfl, rfl, rfl, rfl⟩
    | error msg => simp only [hd] at h; cases h
  | none =>
    simp only [hc] at h
    cases hb : m.baseUrl with
    | none => simp only [hb] at h; cases h
    | some burl =>
      simp only [hb] at h
      cases hh : env.http (burl ++ m.relPath) with
      | connectionError => simp only [hh] at h; cases h
      | response status body =>
        simp only [hh] at h; injection h with h1 h2; subst h2; exact ⟨rfl, rfl, rfl, rfl⟩

/-- Failed resolution only appends to the request log. -/
theorem resolve_err_fields {env : Env} {st : PState} {m : Msg} {e : PipeErr} {st1 : PState}
    (h : resolve_content env st m = .err e st1) :
    st1.files = st.files ∧ st1.dirs = st.dirs ∧ st1.warnings = st.warnings ∧
      st1.errors = st.errors := by
  unfold resolve_content at h
  cases hc : m.content with
  | some c0 =>
    simp only [hc] at h
    cases hd : b64decode c0.value with
    | ok bs => simp only [hd] at h; cases h
    | error msg => simp only [hd] at h; injection h with h1 h2; subst h2; exact ⟨rfl, rfl, rfl, rfl⟩
  | none =>
    simp only [hc] at h
    cases hb : m.baseUrl with
    | none => simp only [hb] at h; injection h with h1 h2; subst h2; exact ⟨rfl, rfl, rfl, rfl⟩
    | some burl =>
      simp only [hb] at h
      cases hh : env.http (burl ++ m.relPath) with
      | connectionError =>
        simp only [hh] at h; injection h with h1 h2; subst h2; exact ⟨rfl, rfl, rfl, rfl⟩
      | response status body => simp only [hh] at h; cases h

/-- A successful verify-and-write writes the content at the derived output
path and changes no other file. -/
theorem vaw_ok_files {env : Env} {st : PState} {topic : String} {m : Msg} {c : List Nat}
    {st' : PState} (h : verify_and_write env st topic m c = .ok st') :
    st'.files = fsWrite st.files (outPath env topic m.relPath) c := by
  simp only [verify_and_write] at h
  repeat' split at h
  all_goals cases h
  all_goals simp [outPath, makedirs_files, addWarning_files]

/-- A verify-and-write failure other than a write failure leaves directories
and files untouched. -/
theorem vaw_err_fields {env : Env} {st : PState} {topic : String} {m : Msg} {c : List Nat}
    {e : PipeErr} {st' : PState} (h : verify_and_write env st topic m c = .err e st')
    (hne : e ≠ .writeError) : st'.dirs = st.dirs ∧ st'.files = st.files := by
  simp only [verify_and_write] at h
  repeat' split at h
  all_goals cases h
  all_goals simp_all [addWarning_dirs, addWarning_files]

/-- Any verify-and-write failure leaves the files untouched. -/
theorem vaw_err_files_all {env : Env} {st : PState} {topic : String} {m : Msg} {c : List Nat}
    {e : PipeErr} {st' : PState} (h : verify_and_write env st topic m c = .err e st') :
    st'.files = st.files := by
  simp only [verify_and_write] at h
  repeat' split at h
  all_goals cases h
  all_goals simp [makedirs_files, addWarning_files]

/-- C8, amended: when the resolved content length differs from the declared
size, the raised error carries the actual resolved length in the slot the
exception message labels `expected` and the declared `message.size` in the
slot labelled `got` (the source passes `len(content)` first and
`message["size"]` second to `format`), and the state is unchanged. -/
theorem claim_C8_amended (env : Env) (st : PState) (topic : String) (m : Msg)
    (content : List Nat) (h : ¬((content.length : Int) = m.size)) :
    verify_and_write env st topic m content =
      .err (.lengthMismatch content.length m.size) st := by
  simp only [verify_and_write, if_pos h]

/-- C5: a resolved content whose length differs from the declared size
always fails with the length-mismatch error and nothing is written; a
message is written only if the length check and one of the two digest
checks pass; and at pipeline level the length mismatch aborts the message
with the filesystem untouched. -/
theorem claim_C5_result :
    (∀ (env : Env) (st : PState) (topic : String) (m : Msg) (content : List Nat),
      ¬((content.length : Int) = m.size) →
      verify_and_write env st topic m content =
        .err (.lengthMismatch content.length m.size) st) ∧
    (∀ (env : Env) (st : PState) (topic : String) (m : Msg) (content : List Nat)
      (st' : PState), verify_and_write env st topic m content = .ok st' →
      (content.length : Int) = m.size ∧
        (b64encode (sha512_digest content) = m.integrity.value ∨
         sha512_hexdigest content = m.integrity.value)) ∧
    (∀ (env : Env) (st : PState) (j : JVal) (m : Msg) (topic : String)
      (content : List Nat) (st1 : PState),
      validateSchema j = some m →
      resolve_content env st m = .ok content st1 →
      ¬((content.length : Int) = m.size) →
      parse_mqp_message env st (.wellFormed j) topic =
        .err (.lengthMismatch content.length m.size) st1 ∧ st1.files = st.files) := by
  refine ⟨?_, ?_, ?_⟩
  · intro env st topic m content h
    simp only [verify_and_write, if_pos h]
  · intro env st topic m content st' h
    simp only [verify_and_write] at h
    repeat' split at h
    all_goals cases h
    all_goals exact ⟨by tauto, by tauto⟩
  · intro env st j m topic content st1 hv hres hlen
    have hm := validate_method hv
    have he := validate_encoding hv
    constructor
    · simp only [parse_mqp_message, hv, he, hm]
      simp only [hres]
      simp [verify_and_write, if_pos hlen]
    · exact (resolve_ok_fields hres).1

/-- C2: with the declared size correct, a content whose base64 SHA-512
digest does not match the declared value still verifies and is written
whenever the lowercase hexadecimal digest matches, with one warning-level
log line emitted on this fallback path; when the base64 digest matches, no
warning is emitted (the hexadecimal comparison is only reached after the
base64 comparison fails); and when neither encoding matches the message
fails with the checksum error, after the warning, with no file written. -/
theorem claim_C2_digest_fallback (env : Env) (st : PState) (topic : String) (m : Msg)
    (content : List Nat) (hfp : env.failPaths = [])
    (hlen : (content.length : Int) = m.size) :
    (b64encode (sha512_digest content) ≠ m.integrity.value →
      sha512_hexdigest content = m.integrity.value →
      tagOf (verify_and_write env st topic m content) = none ∧
      (stOf (verify_and_write env st topic m content)).warnings =
        st.warnings ++ ["checksum problem. Check old style encoding"] ∧
      (stOf (verify_and_write env st topic m content)).files =
        fsWrite st.files (outPath env topic m.relPath) content) ∧
    (b64encode (sha512_digest content) = m.integrity.value →
      tagOf (verify_and_write env st topic m content) = none ∧
      (stOf (verify_and_write env st topic m content)).warnings = st.warnings ∧
      (stOf (verify_and_write env st topic m content)).files =
        fsWrite st.files (outPath env topic m.relPath) content) ∧
    (b64encode (sha512_digest content) ≠ m.integrity.value →
      sha512_hexdigest content ≠ m.integrity.value →
      verify_and_write env st topic m content =
        .err (.checksumMismatch (b64encode (sha512_digest content)) m.integrity.value)
          (addWarning st "checksum problem. Check old style encoding") ∧
      (addWarning st "checksum problem. Check old style encoding").files = st.files) := by
  refine ⟨?_, ?_, ?_⟩
  · intro h2 h3
    simp only [verify_and_write, if_neg (not_not_intro hlen), if_pos h2,
      if_neg (not_not_intro h3)]
    rw [if_neg (by simp [hfp])]
    refine ⟨rfl, ?_, ?_⟩
    · simp [stOf, makedirs_warnings, addWarning]
    · simp [stOf, outPath, makedirs_files, addWarning_files]
  · intro h2
    simp only [verify_and_write, if_neg (not_not_intro hlen), if_neg (not_not_intro h2)]
    rw [if_neg (by simp [hfp])]
    refine ⟨rfl, ?_, ?_⟩
    · simp [stOf, makedirs_warnings]
    · simp [stOf, outPath, makedirs_files]
  · intro h2 h3
    constructor
    · simp only [verify_and_write, if_neg (not_not_intro hlen), if_pos h2, if_pos h3]
    · rfl

/-- Shape of every payload that passes schema validation: the three required
fields are present, a declared integrity method is `"sha512"`, and a
declared content encoding is `"base64"`. -/
theorem validate_some_shape {j : JVal} {m : Msg} (h : validateSchema j = some m) :
    (∃ x, jlookup j "relPath" = some x) ∧ (∃ x, jlookup j "size" = some x) ∧
    (∃ x, jlookup j "integrity" = some x) ∧
    (∀ ji v, jlookup j "integrity" = some ji → jlookup ji "method" = some v →
      v = .str "sha512") ∧
    (∀ jc v, jlookup j "content" = some jc → jlookup jc "encoding" = some v →
      v = .str "base64") := by
  unfold validateSchema at h
  repeat' split at h
  all_goals simp_all
  all_goals
    first
      | (refine ⟨?_, ?_⟩ <;> (intro a v hx hy; subst hx; simp_all))
      | (intro a v hx hy; subst hx; simp_all)

/-- C4: a payload missing `relPath`, `size` or `integrity`, or declaring an
integrity method other than `"sha512"`, or a content encoding other than
`"base64"`, fails before any network fetch is issued and before any
directory is created or file is written. -/
theorem claim_C4_schema_gate (env : Env) (st : PState) (topic : String) (j : JVal)
    (hdef : jlookup j "relPath" = none ∨ jlookup j "size" = none ∨
      jlookup j "integrity" = none ∨
      (∃ ji v, jlookup j "integrity" = some ji ∧ jlookup ji "method" = some v ∧
        v ≠ .str "sha512") ∨
      (∃ jc v, jlookup j "content" = some jc ∧ jlookup jc "encoding" = some v ∧
        v ≠ .str "base64")) :
    ∃ e st', parse_mqp_message env st (.wellFormed j) topic = .err e st' ∧
      st'.requests = st.requests ∧ st'.dirs = st.dirs ∧ st'.files = st.files := by
  have hv : validateSchema j = none := by
    cases hv : validateSchema j with
    | none => rfl
    | some m =>
      obtain ⟨⟨x1, e1⟩, ⟨x2, e2⟩, ⟨x3, e3⟩, hmeth, henc⟩ := validate_some_shape hv
      rcases hdef with h | h | h | ⟨ji, v, h1, h2, h3⟩ | ⟨jc, v, h1, h2, h3⟩
      · rw [h] at e1; cases e1
      · rw [h] at e2; cases e2
      · rw [h] at e3; cases e3
      · exact absurd (hmeth ji v h1 h2) h3
      · exact absurd (henc jc v h1 h2) h3
  refine ⟨.schemaViolation, st, ?_, rfl, rfl, rfl⟩
  simp [parse_mqp_message, hv]

/-- C9: every pipeline failure other than the write failure itself leaves
the filesystem completely unchanged: no directory is created and no file is
written, because directory creation comes after all checks. -/
theorem claim_C9_no_effects_before_write (env : Env) (st : PState) (body : RawPayload)
    (topic : String) (e : PipeErr) (st' : PState)
    (h : parse_mqp_message env st body topic = .err e st') (hne : e ≠ .writeError) :
    st'.dirs = st.dirs ∧ st'.files = st.files := by
  cases body with
  | malformed => cases h; exact ⟨rfl, rfl⟩
  | wellFormed j =>
    simp only [parse_mqp_message] at h
    cases hv : validateSchema j with
    | none => simp only [hv] at h; cases h; exact ⟨rfl, rfl⟩
    | some m =>
      simp only [hv] at h
      split at h
      · cases h; exact ⟨rfl, rfl⟩
      · split at h
        · cases h; exact ⟨rfl, rfl⟩
        · cases hres : resolve_content env st m with
          | err e2 st2 =>
            simp only [hres] at h; cases h
            obtain ⟨hf, hd, _, _⟩ := resolve_err_fields hres
            exact ⟨hd, hf⟩
          | ok content st2 =>
            simp only [hres] at h
            obtain ⟨hd2, hf2⟩ := vaw_err_fields h hne
            obtain ⟨hf, hd, _, _⟩ := resolve_ok_fields hres
            exact ⟨by rw [hd2, hd], by rw [hf2, hf]⟩

/-- C1: every successfully processed message writes exactly one file, at the
path obtained by joining the output root, the topic with dots replaced by
separators, and the basename of `relPath`; the path depends on `relPath`
only through its basename, so directory components of `relPath` never
appear in it. -/
theorem claim_C1_path_derivation (env : Env) (st : PState) (j : JVal) (m : Msg)
    (topic : String) (st' : PState) (hv : validateSchema j = some m)
    (hok : parse_mqp_message env st (.wellFormed j) topic = .ok st') :
    (∃ content, st'.files = fsWrite st.files (outPath env topic m.relPath) content) ∧
    (∀ rp2, (ospath_split rp2).2 = (ospath_split m.relPath).2 →
      outPath env topic rp2 = outPath env topic m.relPath) := by
  constructor
  · simp [parse_mqp_message, hv, validate_encoding hv, validate_method hv] at hok
    cases hres : resolve_content env st m with
    | err e2 st2 => simp only [hres] at hok; cases hok
    | ok content st2 =>
      simp only [hres] at hok
      exact ⟨content, by rw [vaw_ok_files hok, (resolve_ok_fields hres).1]⟩
  · intro rp2 h2; unfold outPath; rw [h2]

/-- C3, amended: a schema-valid message without inline content has a
`baseUrl`, and the resolver issues exactly one GET to
`baseUrl ++ relPath`; a transport-level failure aborts the message with the
fetch error, but an HTTP response is passed on to verification with its
body as the content whatever its status code. -/
theorem claim_C3_amended_fetch (env : Env) (st : PState) (j : JVal) (m : Msg)
    (topic : String) (hv : validateSchema j = some m) (hc : m.content = none) :
    ∃ burl, m.baseUrl = some burl ∧
      (addRequest st (burl ++ m.relPath)).requests = st.requests ++ [burl ++ m.relPath] ∧
      parse_mqp_message env st (.wellFormed j) topic =
        (match env.http (burl ++ m.relPath) with
         | .connectionError => .err .fetchError (addRequest st (burl ++ m.relPath))
         | .response _ body =>
             verify_and_write env (addRequest st (burl ++ m.relPath)) topic m body) := by
  obtain ⟨burl, hb⟩ := validate_baseUrl hv hc
  refine ⟨burl, hb, rfl, ?_⟩
  simp [parse_mqp_message, hv, validate_encoding hv, validate_method hv]
  unfold resolve_content
  simp only [hc, hb]
  cases henv : env.http (burl ++ m.relPath) <;> simp [henv]

/-! ## State-congruence machinery for batch isolation -/

/-- Logging an error does not change the files. -/
theorem addError_files (st : PState) (e : String) : (addError st e).files = st.files := rfl

/-- Resolution behaves the same from any two states with equal files. -/
theorem resolve_cong (env : Env) (m : Msg) (a b : PState) (hf : a.files = b.files) :
    rrTag (resolve_content env a m) = rrTag (resolve_content env b m) ∧
    rrBytes (resolve_content env a m) = rrBytes (resolve_content env b m) ∧
    (rrSt (resolve_content env a m)).files = (rrSt (resolve_content env b m)).files := by
  unfold resolve_content
  cases hc : m.content with
  | some c0 => cases hd : b64decode c0.value <;> simp [hd, rrTag, rrBytes, rrSt, hf]
  | none =>
    cases hb : m.baseUrl with
    | none => simp [rrTag, rrBytes, rrSt, hf]
    | some burl =>
      cases hh : env.http (burl ++ m.relPath) <;>
        simp [hh, rrTag, rrBytes, rrSt, addRequest, hf]

/-- Verify-and-write behaves the same from any two states with equal
files. -/
theorem vaw_cong {env : Env} {topic : String} {m : Msg} {c : List Nat} (a b : PState)
    (hf : a.files = b.files) :
    tagOf (verify_and_write env a topic m c) = tagOf (verify_and_write env b topic m c) ∧
    (stOf (verify_and_write env a topic m c)).files =
      (stOf (verify_and_write env b topic m c)).files := by
  simp only [verify_and_write]
  by_cases h1 : ((c.length : Int) = m.size)
  · by_cases h2 : (b64encode (sha512_digest c) = m.integrity.value)
    · by_cases h4 : (ospath_join (ospath_join env.out_dir (pyCharReplace topic '.' '/'))
        (ospath_split m.relPath).2 ∈ env.failPaths)
      · simp [h1, h2, h4, tagOf, stOf, makedirs_files, hf]
      · simp [h1, h2, h4, tagOf, stOf, makedirs_files, hf]
    · by_cases h3 : (sha512_hexdigest c = m.integrity.value)
      · by_cases h4 : (ospath_join (ospath_join env.out_dir (pyCharReplace topic '.' '/'))
          (ospath_split m.relPath).2 ∈ env.failPaths)
        · simp [h1, h2, h3, h4, tagOf, stOf, makedirs_files, addWarning_files, hf]
        · simp [h1, h2, h3, h4, tagOf, stOf, makedirs_files, addWarning_files, hf]
      · simp [h1, h2, h3, tagOf, stOf, addWarning_files, hf]
  · simp [h1, tagOf, stOf, hf]

/-- The pipeline outcome and file effect depend on the prior state only
through its files. -/
theorem parse_cong (env : Env) (p : RawPayload) (t : String) (a b : PState)
    (hf : a.files = b.files) :
    tagOf (parse_mqp_message env a p t) = tagOf (parse_mqp_message env b p t) ∧
    (stOf (parse_mqp_message env a p t)).files = (stOf (parse_mqp_message env b p t)).files := by
  cases p with
  | malformed => simp [parse_mqp_message, tagOf, stOf, hf]
  | wellFormed j =>
    simp only [parse_mqp_message]
    cases hv : validateSchema j with
    | none => simp [tagOf, stOf, hf]
    | some m =>
      by_cases g1 : contentEncodingUnsupported m = true
      · simp [g1, tagOf, stOf, hf]
      · by_cases g2 : m.integrity.method = "sha512"
        · simp only [g1, g2, if_false, if_neg (not_not_intro g2), Bool.false_eq_true,
            ite_false]
          obtain ⟨ht, hb2, hs⟩ := resolve_cong env m a b hf
          cases hr1 : resolve_content env a m with
          | err e1 s1 =>
            cases hr2 : resolve_content env b m with
            | err e2 s2 =>
              simp [hr1, hr2, rrTag, rrSt] at ht hs
              simp [tagOf, stOf, ht, hs]
            | ok c2 s2 => simp [hr1, hr2, rrTag] at ht
          | ok c1 s1 =>
            cases hr2 : resolve_content env b m with
            | err e2 s2 => simp [hr1, hr2, rrTag] at ht
            | ok c2 s2 =>
              simp [hr1, hr2, rrBytes, rrSt] at hb2 hs
              subst hb2
              exact vaw_cong s1 s2 hs
        · simp [g1, g2, tagOf, stOf, hf]

/-- The callback preserves equality of files between runs. -/
theorem callback_files_cong (env : Env) (t : String) (p : RawPayload) (a b : PState)
    (hf : a.files = b.files) :
    (callback env a t p).files = (callback env b t p).files := by
  unfold callback
  obtain ⟨ht, hs⟩ := parse_cong env p t a b hf
  cases h1 : parse_mqp_message env a p t with
  | ok s1 =>
    cases h2 : parse_mqp_message env b p t with
    | ok s2 => simp [h1, h2, stOf] at hs; simpa using hs
    | err e2 s2 => simp [h1, h2, tagOf] at ht
  | err e1 s1 =>
    cases h2 : parse_mqp_message env b p t with
    | ok s2 => simp [h1, h2, tagOf] at ht
    | err e2 s2 => simp [h1, h2, stOf] at hs; simpa [addError] using hs

/-- Batch processing preserves equality of files between runs. -/
theorem runBatch_files_cong (env : Env) (ds : List (String × RawPayload)) :
    ∀ a b : PState, a.files = b.files →
      (runBatch env a ds).files = (runBatch env b ds).files := by
  induction ds with
  | nil => intro a b hf; simpa [runBatch] using hf
  | cons d rest ih =>
    intro a b hf
    simp only [runBatch, List.foldl_cons]
    exact ih _ _ (callback_files_cong env d.1 d.2 a b hf)

/-- Any pipeline failure leaves the files unchanged. -/
theorem parse_err_files {env : Env} {st : PState} {p : RawPayload} {t : String}
    {e : PipeErr} {st' : PState} (h : parse_mqp_message env st p t = .err e st') :
    st'.files = st.files := by
  cases p with
  | malformed => cases h; rfl
  | wellFormed j =>
    simp only [parse_mqp_message] at h
    cases hv : validateSchema j with
    | none => simp only [hv] at h; cases h; rfl
    | some m =>
      simp only [hv] at h
      split at h
      · cases h; rfl
      · split at h
        · cases h; rfl
        · cases hres : resolve_content env st m with
          | err e2 st2 =>
            simp only [hres] at h; cases h
            exact (resolve_err_fields hres).1
          | ok content st2 =>
            simp only [hres] at h
            rw [vaw_err_files_all h, (resolve_ok_fields hres).1]

/-- C7: the delivery callback catches every pipeline failure and only logs
it, and a failing delivery inserted anywhere in a batch leaves the files
produced by the batch identical to those of the batch without it: the other
messages are processed exactly the same. -/
theorem claim_C7_isolation (env : Env) (st : PState) (pre post : List (String × RawPayload))
    (topic : String) (body : RawPayload) (e : PipeErr) (st1 : PState)
    (hfail : parse_mqp_message env (runBatch env st pre) body topic = .err e st1) :
    callback env (runBatch env st pre) topic body = addError st1 tracebackLine ∧
    (runBatch env st (pre ++ (topic, body) :: post)).files =
      (runBatch env st (pre ++ post)).files := by
  constructor
  · unfold callback; rw [hfail]
  · have h1 : runBatch env st (pre ++ (topic, body) :: post) =
        runBatch env (callback env (runBatch env st pre) topic body) post := by
      simp [runBatch, List.foldl_append]
    have h2 : runBatch env st (pre ++ post) = runBatch env (runBatch env st pre) post := by
      simp [runBatch, List.foldl_append]
    rw [h1, h2]
    apply runBatch_files_cong
    unfold callback; rw [hfail]
    rw [addError_files]
    exact parse_err_files hfail

set_option maxRecDepth 10000 in
/-- Witness for C1 at the spec example: topic `"a.b.c"`, `relPath`
`"x/y/file.bin"`, output path `./out/a/b/c/file.bin`. -/
theorem claim_C1_witness :
    (∃ content,
      (⟨[], [], [], ["./out/a/b/c"], [("./out/a/b/c/file.bin", helloBytes)]⟩ : PState).files =
        fsWrite initSt.files (outPath envLocal "a.b.c" mFileBin.relPath) content) ∧
    (∀ rp2, (ospath_split rp2).2 = (ospath_split mFileBin.relPath).2 →
      outPath envLocal "a.b.c" rp2 = outPath envLocal "a.b.c" mFileBin.relPath) :=
  claim_C1_path_derivation envLocal initSt jFileBin mFileBin "a.b.c"
    ⟨[], [], [], ["./out/a/b/c"], [("./out/a/b/c/file.bin", helloBytes)]⟩
    (by decide) (by decide)

set_option maxRecDepth 10000 in
/-- Witness for C2: the `"hello world"` message declaring the hexadecimal
digest verifies via the fallback, emits the warning and is written. -/
theorem claim_C2_witness :
    tagOf (verify_and_write envLocal initSt "mw.synop" mHexDigest helloBytes) = none ∧
    (stOf (verify_and_write envLocal initSt "mw.synop" mHexDigest helloBytes)).warnings =
      initSt.warnings ++ ["checksum problem. Check old style encoding"] ∧
    (stOf (verify_and_write envLocal initSt "mw.synop" mHexDigest helloBytes)).files =
      fsWrite initSt.files (outPath envLocal "mw.synop" mHexDigest.relPath) helloBytes :=
  (claim_C2_digest_fallback envLocal initSt "mw.synop" mHexDigest helloBytes rfl
    (by decide)).1 (by decide) (by decide)

/-- Witness for C3 (amended) at the concrete remote message. -/
theorem claim_C3_witness :
    ∃ burl, mRemote.baseUrl = some burl ∧
      (addRequest initSt (burl ++ mRemote.relPath)).requests =
        initSt.requests ++ [burl ++ mRemote.relPath] ∧
      parse_mqp_message envLocal initSt (.wellFormed jRemote) "mw.synop" =
        (match envLocal.http (burl ++ mRemote.relPath) with
         | .connectionError => .err .fetchError (addRequest initSt (burl ++ mRemote.relPath))
         | .response _ body =>
             verify_and_write envLocal (addRequest initSt (burl ++ mRemote.relPath))
               "mw.synop" mRemote body) :=
  claim_C3_amended_fetch envLocal initSt jRemote mRemote "mw.synop" (by decide) rfl

/-- Witness for C4 at a payload missing `size`. -/
theorem claim_C4_witness :
    ∃ e st', parse_mqp_message envLocal initSt (.wellFormed jNoSize) "mw.synop" = .err e st' ∧
      st'.requests = initSt.requests ∧ st'.dirs = initSt.dirs ∧ st'.files = initSt.files :=
  claim_C4_schema_gate envLocal initSt "mw.synop" jNoSize (Or.inr (Or.inl rfl))

/-- Witness for C5 at the message declaring size 5 for 11-byte content. -/
theorem claim_C5_witness :
    parse_mqp_message envLocal initSt (.wellFormed jSizeFive) "mw.synop" =
      .err (.lengthMismatch helloBytes.length mSizeFive.size) initSt ∧
    initSt.files = initSt.files :=
  claim_C5_result.2.2 envLocal initSt jSizeFive mSizeFive "mw.synop" helloBytes initSt
    (by decide) rfl (by decide)

/-- Witness for C7: a malformed delivery inserted before a good one leaves
the good one fully processed. -/
theorem claim_C7_witness :
    callback envLocal (runBatch envLocal initSt []) "mw.bad" .malformed =
      addError initSt tracebackLine ∧
    (runBatch envLocal initSt
        ([] ++ ("mw.bad", RawPayload.malformed) :: [("mw.synop", .wellFormed jHello)])).files =
      (runBatch envLocal initSt ([] ++ [("mw.synop", .wellFormed jHello)])).files :=
  claim_C7_isolation envLocal initSt [] [("mw.synop", .wellFormed jHello)] "mw.bad"
    .malformed .jsonDecodeError initSt (by decide)

/-- Witness for C8 (amended) at the message declaring size 5 for 11-byte
content. -/
theorem claim_C8_witness :
    verify_and_write envLocal initSt "a.b" mSizeFive helloBytes =
      .err (.lengthMismatch helloBytes.length mSizeFive.size) initSt :=
  claim_C8_amended envLocal initSt "a.b" mSizeFive helloBytes (by decide)

set_option maxRecDepth 10000 in
/-- Witness for C9 at a remote message failing the checksum: a request and a
warning are logged but dirs and files stay empty. -/
theorem claim_C9_witness :
    (⟨["http://example.test/obs/station1.csv"],
      ["checksum problem. Check old style encoding"], [], [], []⟩ : PState).dirs =
        initSt.dirs ∧
    (⟨["http://example.test/obs/station1.csv"],
      ["checksum problem. Check old style encoding"], [], [], []⟩ : PState).files =
        initSt.files :=
  claim_C9_no_effects_before_write env404 initSt (.wellFormed jBadDigest) "mw.synop"
    (.checksumMismatch helloDigestB64 "nope")
    ⟨["http://example.test/obs/station1.csv"],
      ["checksum problem. Check old style encoding"], [], [], []⟩
    (by decide) (by decide)
